import Mathlib

/-!
Theme controller (`catalog/static/js/theme.js`).

A shallow embedding of the colour-theme script and the properties of it that
its specification states.

The script is one immediately-invoked function.  It captures the `theme` entry
of `localStorage` in the constant `storedTheme`, applies the preferred theme
once, and registers two listeners: one for changes of the media query
`prefers-color-scheme: dark` and one for `DOMContentLoaded`, which
highlights the active control and attaches a click listener to every control.

What of the browser is modelled:

* `localStorage` is the single entry under the key `theme`
  (`Page.storage`, `none` when the key is absent).
* `window.matchMedia('(prefers-color-scheme: dark)').matches` is `Page.osDark`.
* The attribute `data-bs-theme` of `document.documentElement` is `Page.rootTheme`.
* `document.body.classList` is `Page.bodyClasses`, a list of tokens; the document
  has a body.
* The elements matched by `[data-bs-theme-value]`, in document order, are
  `Page.controls`.  A control carries its marker, its class list, the `href`
  of the first `svg use` element below it (if there is such an element, and if
  that element has the attribute) and whether the script attached its click
  listener to it.
* The element matched by `.theme-icon-active use` is `Page.activeIcon`; it is
  an element of its own, none of the controls nor one of their icons.
* Line 36 writes `theme` unescaped between the double quotes of the selector
  `[data-bs-theme-value="${theme}"]`.  `cssString` reads the text after the
  opening quote as the CSS tokenizer reads a string: escapes are resolved, a line
  break makes the string bad.  When the string ends at the closing quote the
  script wrote, the selector is one attribute selector and selects the controls
  whose marker is the value of the string (`findControl`); a bad string makes
  `querySelector` throw.  In every other case (a double quote inside `theme`
  ends the string early and the rest of `theme` is read as selector text, or the
  text ends inside the string) the answer of the selector engine is a
  parameter, `Engine`, and may be anything, an element that is no control included.
* No control is the body or the document element.
* An uncaught exception ends the running handler and leaves the mutations made
  so far in place: `Outcome.thrown` carries the page as the exception leaves it.
* `Page.lastApplied` is a ghost field: `setTheme` records its argument there and
  nothing reads it.
* `Page.outsideEdits` counts the calls of `classList.add` the script made on
  elements that are neither a control nor the body, so that the page determines
  the document from the document the script started in.
-/

namespace Theme

/-! ## Class lists (`DOMTokenList`) -/

/-- The check `DOMTokenList` makes on a token before `toggle`, `add` or `remove`:
the empty string is a `SyntaxError`, a token with ASCII whitespace (tab, line
feed, form feed, carriage return, space) an `InvalidCharacterError`. -/
def validToken (tok : String) : Bool :=
  tok.data ≠ [] &&
    tok.data.all fun c => c ≠ '\t' && c ≠ '\n' && c ≠ Char.ofNat 12 && c ≠ '\r' && c ≠ ' '

/-- The token list after `classList.remove(tok)`. -/
def classRemove (tok : String) (cls : List String) : List String :=
  cls.filter fun c => c ≠ tok

/-- The token list after `classList.add(tok)`. -/
def classAdd (tok : String) (cls : List String) : List String :=
  if tok ∈ cls then cls else cls ++ [tok]

/-- The token list after `classList.toggle(tok)`. -/
def classToggle (tok : String) (cls : List String) : List String :=
  if tok ∈ cls then classRemove tok cls else cls ++ [tok]

/-! ## The page -/

/-- An element matched by `[data-bs-theme-value]`. -/
structure Control where
  /-- The value of `data-bs-theme-value`. -/
  marker : String
  /-- The element's `classList`. -/
  classes : List String
  /-- The first `svg use` below the element: `none` when there is none,
  `some none` when it has no `href`, `some (some h)` when its `href` is `h`. -/
  icon : Option (Option String)
  /-- Whether the script's click listener is attached to the element. -/
  listening : Bool
deriving DecidableEq, Repr

/-- The part of the browser state the script reads and writes. -/
structure Page where
  /-- The entry `theme` of `localStorage`. -/
  storage : Option String
  /-- Whether `(prefers-color-scheme: dark)` matches. -/
  osDark : Bool
  /-- The attribute `data-bs-theme` of the document element. -/
  rootTheme : Option String
  /-- The class list of the body. -/
  bodyClasses : List String
  /-- The elements matched by `[data-bs-theme-value]`, in document order. -/
  controls : List Control
  /-- The element matched by `.theme-icon-active use`: `none` when there is
  none, otherwise its `href` attribute. -/
  activeIcon : Option (Option String)
  /-- Ghost: the argument of the most recent call of `setTheme`. -/
  lastApplied : Option String
  /-- The number of `classList.add('active')` calls made on an element that is
  neither a control nor the body. -/
  outsideEdits : Nat
deriving DecidableEq, Repr

/-- How a call ends: normally, or with an uncaught exception; either way with
the page as the call leaves it. -/
inductive Outcome where
  | ok (p : Page)
  | thrown (p : Page)
deriving DecidableEq, Repr

/-- The page a call leaves. -/
def Outcome.page : Outcome → Page
  | .ok p => p
  | .thrown p => p

/-- Whether the call ended normally. -/
def Outcome.isOk : Outcome → Bool
  | .ok _ => true
  | .thrown _ => false

/-- Sequencing of statements: the second runs only when the first did not throw. -/
def Outcome.andThen (o : Outcome) (f : Page → Outcome) : Outcome :=
  match o with
  | .ok p => f p
  | .thrown p => .thrown p

/-! ## The functions of the script -/

/-- The theme the operating system asks for,
`matchMedia('(prefers-color-scheme: dark)').matches ? 'dark' : 'light'`. -/
def osTheme (p : Page) : String :=
  if p.osDark then "dark" else "light"

/-- The function `getPreferredTheme`, lines 8-15; `storedTheme` is the constant
of line 4.  The test `if (storedTheme)` is JavaScript truthiness: `null` and the
empty string fail it. -/
def getPreferredTheme (storedTheme : Option String) (p : Page) : String :=
  match storedTheme with
  | none => osTheme p
  | some v => if v = "" then osTheme p else v

/-- The statement `document.body.classList.toggle(tok)`; it throws on a token
that is not valid. -/
def bodyToggle (tok : String) (p : Page) : Outcome :=
  if validToken tok then .ok { p with bodyClasses := classToggle tok p.bodyClasses }
  else .thrown p

/-- The statement `document.body.classList.remove(tok)`, for the two literal
tokens the script removes. -/
def bodyRemove (tok : String) (p : Page) : Page :=
  { p with bodyClasses := classRemove tok p.bodyClasses }

/-- The statement `document.documentElement.setAttribute('data-bs-theme', v)`. -/
def setRootTheme (v : String) (p : Page) : Page :=
  { p with rootTheme := some v }

/-- The function `setTheme`, lines 17-30. -/
def setTheme (theme : String) (p : Page) : Outcome :=
  let p := { p with lastApplied := some theme }
  if theme = "auto" ∧ p.osDark = true then
    bodyToggle "dark-theme" (setRootTheme "dark" p)
  else
    let p := setRootTheme theme p
    let p :=
      if theme = "light" then bodyRemove "dark-theme" p
      else if theme = "dark" then bodyRemove "light-theme" p
      else p
    bodyToggle (theme ++ "-theme") p

/-! ### The selector of line 36 -/

/-- The state of the CSS tokenizer inside a string: between escapes, right
after a backslash, inside a hexadecimal escape of `n` digits with the value `v`,
or right after a carriage return that ended an escape (a line feed that follows
belongs to the same line break). -/
inductive CssMode where
  | plain
  | escape
  | hex (n v : Nat)
  | afterCR
deriving DecidableEq, Repr

/-- What the CSS tokenizer makes of the text after an opening double quote: a
string with a value and the text left after its closing quote, a bad string (a
line break inside it), or a string the end of the text cut short. -/
inductive CssString where
  | closed (value : List Char) (rest : List Char)
  | bad
  | unterminated (value : List Char)
deriving DecidableEq, Repr

/-- A line break of CSS: line feed, carriage return, form feed. -/
def isNewline (c : Char) : Bool :=
  c = '\n' || c = '\r' || c = Char.ofNat 12

/-- A hexadecimal digit. -/
def isHex (c : Char) : Bool :=
  (48 ≤ c.toNat && c.toNat ≤ 57) || (97 ≤ c.toNat && c.toNat ≤ 102) ||
    (65 ≤ c.toNat && c.toNat ≤ 70)

/-- The value of a hexadecimal digit. -/
def hexVal (c : Char) : Nat :=
  if c.toNat ≤ 57 then c.toNat - 48 else if 97 ≤ c.toNat then c.toNat - 87 else c.toNat - 55

/-- The replacement character U+FFFD. -/
def replacementChar : Char := Char.ofNat 65533

/-- The code point of a hexadecimal escape: U+FFFD for zero, a surrogate or a
value beyond U+10FFFF. -/
def escapedChar (v : Nat) : Char :=
  if v = 0 ∨ (55296 ≤ v ∧ v ≤ 57343) ∨ 1114111 < v then replacementChar else Char.ofNat v

/-- A code point as the CSS input stream delivers it: U+0000 becomes U+FFFD. -/
def cssChar (c : Char) : Char :=
  if c.toNat = 0 then replacementChar else c

/-- One code point read between escapes: the double quote closes the string, a
line break makes it bad, a backslash opens an escape, anything else is part of
the value.  `k` reads on. -/
def plainChar (acc : List Char) (c : Char) (rest : List Char)
    (k : CssMode → List Char → CssString) : CssString :=
  if c = '"' then .closed acc rest
  else if isNewline c then .bad
  else if c = '\\' then k .escape acc
  else k .plain (acc ++ [cssChar c])

/-- The CSS tokenizer on the text after an opening double quote ("consume a
string token" and "consume an escaped code point" of CSS Syntax, with the
preprocessing of the input stream), `acc` being the value read so far. -/
def scanString : CssMode → List Char → List Char → CssString
  | .hex _ v, acc, [] => .unterminated (acc ++ [escapedChar v])
  | .plain, acc, [] => .unterminated acc
  | .escape, acc, [] => .unterminated acc
  | .afterCR, acc, [] => .unterminated acc
  | .plain, acc, c :: cs => plainChar acc c cs fun m a => scanString m a cs
  | .escape, acc, c :: cs =>
    if c = '\r' then scanString .afterCR acc cs
    else if isNewline c then scanString .plain acc cs
    else if isHex c then scanString (.hex 1 (hexVal c)) acc cs
    else scanString .plain (acc ++ [cssChar c]) cs
  | .hex n v, acc, c :: cs =>
    if isHex c ∧ n < 6 then scanString (.hex (n + 1) (v * 16 + hexVal c)) acc cs
    else if c = '\r' then scanString .afterCR (acc ++ [escapedChar v]) cs
    else if isNewline c ∨ c = '\t' ∨ c = ' ' then scanString .plain (acc ++ [escapedChar v]) cs
    else plainChar (acc ++ [escapedChar v]) c cs fun m a => scanString m a cs
  | .afterCR, acc, c :: cs =>
    if c = '\n' then scanString .plain acc cs
    else plainChar acc c cs fun m a => scanString m a cs

/-- The string the selector of line 36 holds for `theme`: the tokenizer on
`theme` followed by the `"]` the script writes after it. -/
def cssString (theme : String) : CssString :=
  scanString .plain [] (theme.data ++ ['"', ']'])

/-- A code point that stands for itself in a CSS string: not the double quote,
the backslash, a line break or U+0000. -/
def plainCssChar (c : Char) : Bool :=
  c ≠ '"' && c ≠ '\\' && !isNewline c && c.toNat ≠ 0

/-- The selector text of line 36. -/
def selectorText (theme : String) : String :=
  "[data-bs-theme-value=" ++ String.singleton '"' ++ theme ++ String.singleton '"' ++ "]"

/-- What `document.querySelector` does: it throws a `SyntaxError`, returns
`null`, returns the control at a position, or returns another element, of which
the script uses whether it is the body and the `href` of the first `svg use`
below it (`none` when there is none, `some none` when it has no `href`). -/
inductive Lookup where
  | invalid
  | missing
  | control (i : Nat)
  | other (isBody : Bool) (icon : Option (Option String))
deriving DecidableEq, Repr

/-- The selector engine of the browser on a selector text, in the document a
page stands for. -/
abbrev Engine := String → Page → Lookup

/-- The first control whose marker is `value`, with its position: the element
the attribute selector `[data-bs-theme-value="..."]` with that value selects. -/
def findControl (value : String) : List Control → Option (Nat × Control)
  | [] => none
  | c :: cs =>
    if c.marker = value then some (0, c)
    else (findControl value cs).map fun r => (r.1 + 1, r.2)

/-- The call `document.querySelector` of line 36.  When `theme` reads as one CSS
string closed by the quote the script wrote, the selector is one attribute
selector; when the string is bad the selector is invalid; otherwise the engine
`qs` answers. -/
def querySelectorTheme (qs : Engine) (theme : String) (p : Page) : Lookup :=
  match cssString theme with
  | .closed value rest =>
    if rest = [']'] then
      match findControl (String.mk value) p.controls with
      | none => .missing
      | some (i, _) => .control i
    else qs (selectorText theme) p
  | .bad => .invalid
  | .unterminated _ => qs (selectorText theme) p

/-- The loop of lines 39-41: `classList.remove('active')` on every control. -/
def clearActive (cs : List Control) : List Control :=
  cs.map fun c => { c with classes := classRemove "active" c.classes }

/-- The statement `btnToActive.classList.add('active')` of line 43, on the control
at position `i`. -/
def addActiveAt : Nat → List Control → List Control
  | _, [] => []
  | 0, c :: cs => { c with classes := classAdd "active" c.classes } :: cs
  | i + 1, c :: cs => c :: addActiveAt i cs

/-- The string `setAttribute` stores for the value `getAttribute` returned:
`null` is converted to the string `null`. -/
def attrString : Option String → String
  | none => "null"
  | some h => h

/-- Line 44, `activeThemeIcon.setAttribute('href', svgOfActiveBtn)`; it throws
when there is no active-icon element. -/
def setActiveIcon (svgOfActiveBtn : Option String) (p : Page) : Outcome :=
  match p.activeIcon with
  | none => .thrown p
  | some _ => .ok { p with activeIcon := some (some (attrString svgOfActiveBtn)) }

/-- The function `showActiveTheme`, lines 34-45.  Line 36 throws when the
selector is invalid; line 37 throws when no element was found or the element
found has no `svg use` below it; line 44 throws when there is no active-icon
element. -/
def showActiveTheme (qs : Engine) (theme : String) (p : Page) : Outcome :=
  match querySelectorTheme qs theme p with
  | .invalid => .thrown p
  | .missing => .thrown p
  | .control i =>
    match p.controls[i]? with
    | none => .thrown p
    | some btnToActive =>
      match btnToActive.icon with
      | none => .thrown p
      | some svgOfActiveBtn =>
        setActiveIcon svgOfActiveBtn
          { p with controls := addActiveAt i (clearActive p.controls) }
  | .other isBody icon =>
    match icon with
    | none => .thrown p
    | some svgOfActiveBtn =>
      let p := { p with controls := clearActive p.controls }
      let p :=
        if isBody then { p with bodyClasses := classAdd "active" p.bodyClasses }
        else { p with outsideEdits := p.outsideEdits + 1 }
      setActiveIcon svgOfActiveBtn p

/-- The guard of line 48, `storedTheme !== 'light' || storedTheme !== 'dark'`. -/
def colorSchemeGuard (storedTheme : Option String) : Bool :=
  storedTheme != some "light" || storedTheme != some "dark"

/-- The listener of lines 47-51 for a change of `(prefers-color-scheme: dark)`. -/
def onColorSchemeChange (storedTheme : Option String) (p : Page) : Outcome :=
  if colorSchemeGuard storedTheme then setTheme (getPreferredTheme storedTheme p) p
  else .ok p

/-- The click listener of lines 57-62 of a control whose marker is `theme`. -/
def onClick (qs : Engine) (theme : String) (p : Page) : Outcome :=
  let p := { p with storage := some theme }
  (setTheme theme p).andThen (showActiveTheme qs theme)

/-- The loop of lines 55-63: a click listener on every control. -/
def attachClick (cs : List Control) : List Control :=
  cs.map fun c => { c with listening := true }

/-- The listener of lines 53-65 for `DOMContentLoaded`. -/
def onDOMContentLoaded (qs : Engine) (storedTheme : Option String) (p : Page) : Outcome :=
  (showActiveTheme qs (getPreferredTheme storedTheme p) p).andThen fun p =>
    .ok { p with controls := attachClick p.controls }

/-! ## A session: the script running in a page -/

/-- The script's constant together with the page. -/
structure Session where
  /-- The constant `storedTheme` of line 4. -/
  storedTheme : Option String
  /-- Whether the script ran to its end, so that its two listeners (lines 47 and
  53) are registered; it does not when line 32 throws. -/
  registered : Bool
  /-- The page. -/
  page : Page
deriving DecidableEq, Repr

/-- Running the script, lines 1-65, in a page. -/
def runScript (p : Page) : Session :=
  let storedTheme := p.storage
  match setTheme (getPreferredTheme storedTheme p) p with
  | .ok p => { storedTheme := storedTheme, registered := true, page := p }
  | .thrown p => { storedTheme := storedTheme, registered := false, page := p }

/-- The event `DOMContentLoaded`. -/
def domContentLoaded (qs : Engine) (s : Session) : Session :=
  if s.registered then { s with page := (onDOMContentLoaded qs s.storedTheme s.page).page }
  else s

/-- What happens to a page after it has loaded. -/
inductive Event where
  /-- The user clicks the control at position `i`. -/
  | click (i : Nat)
  /-- The operating system's colour scheme changes, to dark or from dark. -/
  | colorSchemeChange
deriving DecidableEq, Repr

/-- One event: the page's listener for it, if there is one, runs to its end or
to its uncaught exception. -/
def step (qs : Engine) (s : Session) : Event → Session
  | .click i =>
    match s.page.controls[i]? with
    | none => s
    | some c =>
      if c.listening then { s with page := (onClick qs c.marker s.page).page } else s
  | .colorSchemeChange =>
    let p := { s.page with osDark := !s.page.osDark }
    if s.registered then { s with page := (onColorSchemeChange s.storedTheme p).page }
    else { s with page := p }

/-- A sequence of events, in order. -/
def run (qs : Engine) (s : Session) (evs : List Event) : Session :=
  evs.foldl (step qs) s

/-- An engine that rejects every selector text it is asked about; the examples
below never ask it. -/
def strictEngine : Engine :=
  fun _ _ => .invalid

/-- The markers of the controls that carry the class `active`, in document order. -/
def activeMarkers (p : Page) : List String :=
  (p.controls.filter fun c => "active" ∈ c.classes).map Control.marker

/-! ## Pages used as examples -/

/-- A control as the markup writes it. -/
def mkControl (marker : String) (classes : List String) (href : String) : Control :=
  { marker := marker, classes := classes, icon := some (some href), listening := false }

/-- A page with one control for each theme, no stored preference and a dark
operating system. -/
def freshDarkPage : Page :=
  { storage := none, osDark := true, rootTheme := none, bodyClasses := [],
    controls := [mkControl "light" [] "#sun", mkControl "dark" [] "#moon",
                 mkControl "auto" ["active"] "#half"],
    activeIcon := some (some "#half"), lastApplied := none, outsideEdits := 0 }

/-- A page with the markup the script expects: one control for each of `light`,
`dark` and `auto`, each with an icon below it, and an active-icon element. -/
def WellFormed (p : Page) : Prop :=
  (p.controls.map Control.marker).Perm ["light", "dark", "auto"] ∧
    (∀ c ∈ p.controls, c.icon ≠ none) ∧ p.activeIcon ≠ none

instance (p : Page) : Decidable (WellFormed p) := by
  unfold WellFormed
  infer_instance

/-- The page `freshDarkPage` with the stored preference `blue`, for which it has
no control. -/
def bluePage : Page :=
  { freshDarkPage with storage := some "blue" }

/-- The page `freshDarkPage` with the icon of its `dark` control taken out. -/
def bareDarkPage : Page :=
  { freshDarkPage with
    controls := [mkControl "light" [] "#sun",
                 { marker := "dark", classes := [], icon := none, listening := false },
                 mkControl "auto" ["active"] "#half"] }

/-- The page `freshDarkPage` with a `dark` control whose `use` element has no
`href` attribute (it names its symbol with `xlink:href`, say). -/
def noHrefPage : Page :=
  { freshDarkPage with
    controls := [mkControl "light" [] "#sun",
                 { marker := "dark", classes := [], icon := some none, listening := false },
                 mkControl "auto" ["active"] "#half"] }

/-- The session of `freshDarkPage` once the script has run and `DOMContentLoaded`
has fired. -/
def loadedFreshDark : Session :=
  domContentLoaded strictEngine (runScript freshDarkPage)

/-- The reference definition of `resolvePreferredTheme`, in the words of the
specification: an entry present at startup is returned verbatim, otherwise the
operating system decides. -/
def resolvePreferredTheme (entry : Option String) (osDark : Bool) : String :=
  match entry with
  | some v => v
  | none => if osDark then "dark" else "light"

/-! ## Class lists -/

variable {qs : Engine}

theorem mem_classRemove (a tok : String) (cls : List String) :
    a ∈ classRemove tok cls ↔ a ∈ cls ∧ a ≠ tok := by
  simp [classRemove]

theorem classRemove_of_not_mem {tok : String} {cls : List String} (h : tok ∉ cls) :
    classRemove tok cls = cls := by
  unfold classRemove
  rw [List.filter_eq_self]
  intro a ha
  have : a ≠ tok := fun e => h (e ▸ ha)
  simpa using this

theorem not_mem_classRemove (tok : String) (cls : List String) :
    tok ∉ classRemove tok cls := by
  simp [mem_classRemove]

theorem classRemove_append_self (tok : String) (cls : List String) :
    classRemove tok (cls ++ [tok]) = classRemove tok cls := by
  simp [classRemove]

theorem mem_classToggle (a tok : String) (cls : List String) :
    a ∈ classToggle tok cls ↔ (a ∈ cls ∧ a ≠ tok) ∨ (a = tok ∧ tok ∉ cls) := by
  unfold classToggle
  by_cases h : tok ∈ cls
  · simp [h, mem_classRemove]
  · simp only [h, if_false, List.mem_append, List.mem_singleton, not_false_eq_true, and_true]
    constructor
    · rintro (ha | ha)
      · exact Or.inl ⟨ha, fun e => h (e ▸ ha)⟩
      · exact Or.inr ha
    · rintro (⟨ha, -⟩ | ha)
      · exact Or.inl ha
      · exact Or.inr ha

theorem classToggle_of_mem {tok : String} {cls : List String} (h : tok ∈ cls) :
    classToggle tok cls = classRemove tok cls := by
  simp [classToggle, h]

theorem classToggle_of_not_mem {tok : String} {cls : List String} (h : tok ∉ cls) :
    classToggle tok cls = cls ++ [tok] := by
  simp [classToggle, h]

theorem classToggle_classToggle_of_not_mem {tok : String} {cls : List String}
    (h : tok ∉ cls) : classToggle tok (classToggle tok cls) = cls := by
  rw [classToggle_of_not_mem h, classToggle_of_mem (by simp), classRemove_append_self,
    classRemove_of_not_mem h]

theorem classToggle_thrice (tok : String) (cls : List String) :
    classToggle tok (classToggle tok (classToggle tok cls)) = classToggle tok cls := by
  by_cases h : tok ∈ cls
  · rw [classToggle_of_mem h,
      classToggle_classToggle_of_not_mem (not_mem_classRemove tok cls)]
  · rw [classToggle_classToggle_of_not_mem h]

/-! ## `setTheme` -/

theorem validToken_dark_theme : validToken "dark-theme" = true := by decide

theorem validToken_light_theme : validToken "light-theme" = true := by decide

theorem validToken_auto_theme : validToken "auto-theme" = true := by decide

theorem setTheme_auto_osDark (p : Page) (h : p.osDark = true) :
    setTheme "auto" p = .ok { p with
      lastApplied := some "auto", rootTheme := some "dark",
      bodyClasses := classToggle "dark-theme" p.bodyClasses } := by
  simp [setTheme, h, bodyToggle, setRootTheme, validToken_dark_theme]

theorem setTheme_light (p : Page) :
    setTheme "light" p = .ok { p with
      lastApplied := some "light", rootTheme := some "light",
      bodyClasses := classToggle "light-theme" (classRemove "dark-theme" p.bodyClasses) } := by
  simp [setTheme, bodyToggle, bodyRemove, setRootTheme, validToken_light_theme]

theorem setTheme_dark (p : Page) :
    setTheme "dark" p = .ok { p with
      lastApplied := some "dark", rootTheme := some "dark",
      bodyClasses := classToggle "dark-theme" (classRemove "light-theme" p.bodyClasses) } := by
  simp [setTheme, bodyToggle, bodyRemove, setRootTheme, validToken_dark_theme]

theorem setTheme_auto_osLight (p : Page) (h : p.osDark = false) :
    setTheme "auto" p = .ok { p with
      lastApplied := some "auto", rootTheme := some "auto",
      bodyClasses := classToggle "auto-theme" p.bodyClasses } := by
  simp [setTheme, h, bodyToggle, setRootTheme, validToken_auto_theme]

theorem setTheme_other (theme : String) (p : Page) (hl : theme ≠ "light")
    (hd : theme ≠ "dark") (ha : theme ≠ "auto") :
    setTheme theme p =
      bodyToggle (theme ++ "-theme") { p with lastApplied := some theme, rootTheme := some theme } := by
  simp [setTheme, hl, hd, ha, setRootTheme]

/-- C1, as stated, fails: a stored entry that is the empty string is present
but is not returned; with a dark operating system the script returns `dark`
where the reference definition returns the entry. -/
theorem getPreferredTheme_empty_entry :
    getPreferredTheme (some "") freshDarkPage = "dark" ∧
      resolvePreferredTheme (some "") freshDarkPage.osDark = "" ∧
      getPreferredTheme (some "") freshDarkPage ≠
        resolvePreferredTheme (some "") freshDarkPage.osDark := by
  decide

/-- C1, amended: `getPreferredTheme` equals the reference definition once an
entry that is the empty string is counted as absent.  So a non-empty entry is
returned verbatim (`auto` as `auto`), and with no entry or an empty one the
result is `dark` when the operating system reports dark and `light` otherwise. -/
theorem getPreferredTheme_eq_reference (storedTheme : Option String) (p : Page) :
    getPreferredTheme storedTheme p =
      resolvePreferredTheme (if storedTheme = some "" then none else storedTheme) p.osDark := by
  cases storedTheme with
  | none => simp [getPreferredTheme, resolvePreferredTheme, osTheme]
  | some v =>
    by_cases hv : v = ""
    · simp [getPreferredTheme, resolvePreferredTheme, osTheme, hv]
    · simp [getPreferredTheme, resolvePreferredTheme, hv]

/-- C2: with the operating system not dark, `setTheme v` for `v` one of `light`,
`dark`, `auto` returns normally and leaves the attribute `data-bs-theme` equal
to `v`, whatever the page was before; for `auto` it is the literal `auto`. -/
theorem setTheme_rootTheme_of_osLight (v : String) (p : Page)
    (hv : v = "light" ∨ v = "dark" ∨ v = "auto") (hos : p.osDark = false) :
    (setTheme v p).isOk = true ∧ (setTheme v p).page.rootTheme = some v := by
  rcases hv with rfl | rfl | rfl
  · simp [setTheme_light, Outcome.isOk, Outcome.page]
  · simp [setTheme_dark, Outcome.isOk, Outcome.page]
  · simp [setTheme_auto_osLight p hos, Outcome.isOk, Outcome.page]

theorem setTheme_rootTheme_of_osLight_witness :
    (setTheme "auto" { freshDarkPage with osDark := false }).isOk = true ∧
      (setTheme "auto" { freshDarkPage with osDark := false }).page.rootTheme = some "auto" :=
  setTheme_rootTheme_of_osLight "auto" { freshDarkPage with osDark := false }
    (Or.inr (Or.inr rfl)) rfl

/-- C3: with the operating system dark, `setTheme "auto"` sets the attribute to
`dark` and flips the membership of `dark-theme` in the body classes, leaving the
membership of every other class as it was.  A second call leaves the attribute
`dark` and gives every class, `dark-theme` included, the membership it had
before the first call; so the second call undoes part of the first and one call
is not idempotent. -/
theorem setTheme_auto_osDark_flips (p : Page) (hos : p.osDark = true) :
    (setTheme "auto" p).page.rootTheme = some "dark" ∧
    ("dark-theme" ∈ (setTheme "auto" p).page.bodyClasses ↔ "dark-theme" ∉ p.bodyClasses) ∧
    (∀ c, c ≠ "dark-theme" → (c ∈ (setTheme "auto" p).page.bodyClasses ↔ c ∈ p.bodyClasses)) ∧
    (setTheme "auto" (setTheme "auto" p).page).page.rootTheme = some "dark" ∧
    (∀ c, c ∈ (setTheme "auto" (setTheme "auto" p).page).page.bodyClasses ↔
      c ∈ p.bodyClasses) ∧
    (setTheme "auto" (setTheme "auto" p).page).page.bodyClasses ≠
      (setTheme "auto" p).page.bodyClasses := by
  have hflip : ∀ cls : List String,
      ("dark-theme" ∈ classToggle "dark-theme" cls ↔ "dark-theme" ∉ cls) := by
    intro cls
    simp [mem_classToggle]
  have hkeep : ∀ (cls : List String) (c : String), c ≠ "dark-theme" →
      (c ∈ classToggle "dark-theme" cls ↔ c ∈ cls) := by
    intro cls c hc
    simp [mem_classToggle, hc]
  have h1 := setTheme_auto_osDark p hos
  have h2 := setTheme_auto_osDark (setTheme "auto" p).page (by rw [h1]; exact hos)
  rw [h2]
  rw [h1]
  simp only [Outcome.page]
  refine ⟨trivial, hflip _, hkeep _, trivial, ?_, ?_⟩
  · intro c
    by_cases hc : c = "dark-theme"
    · subst hc
      rw [hflip, hflip, not_not]
    · rw [hkeep _ c hc, hkeep _ c hc]
  · intro he
    have := hflip (classToggle "dark-theme" p.bodyClasses)
    rw [he] at this
    exact iff_not_self this

theorem setTheme_auto_osDark_flips_witness :
    freshDarkPage.osDark = true ∧
    (setTheme "auto" freshDarkPage).page.rootTheme = some "dark" ∧
    ("dark-theme" ∈ (setTheme "auto" freshDarkPage).page.bodyClasses ↔
      "dark-theme" ∉ freshDarkPage.bodyClasses) ∧
    (setTheme "auto" (setTheme "auto" freshDarkPage).page).page.bodyClasses ≠
      (setTheme "auto" freshDarkPage).page.bodyClasses :=
  ⟨rfl, (setTheme_auto_osDark_flips freshDarkPage rfl).1,
    (setTheme_auto_osDark_flips freshDarkPage rfl).2.1,
    (setTheme_auto_osDark_flips freshDarkPage rfl).2.2.2.2.2⟩

/-- C9: the guard of the colour-scheme listener holds for every value of
`storedTheme`, absent or any string, so the listener always calls
`setTheme(getPreferredTheme())`. -/
theorem colorSchemeGuard_always (storedTheme : Option String) (p : Page) :
    colorSchemeGuard storedTheme = true ∧
      onColorSchemeChange storedTheme p = setTheme (getPreferredTheme storedTheme p) p := by
  have h : colorSchemeGuard storedTheme = true := by
    unfold colorSchemeGuard
    by_cases hl : storedTheme = some "light"
    · subst hl
      decide
    · simp [hl]
  exact ⟨h, by simp [onColorSchemeChange, h]⟩

/-- C10: for every theme string and every page (the operating system's signal
is part of the page and `setTheme` does not change it), the third of three
calls of `setTheme theme` in a row ends as the first does and leaves the page
the first leaves, attribute and body classes included; and the second call
leaves the attribute at the value the first gave it. -/
theorem setTheme_thrice (theme : String) (p : Page) :
    setTheme theme (setTheme theme (setTheme theme p).page).page = setTheme theme p ∧
    (setTheme theme (setTheme theme p).page).page.rootTheme =
      (setTheme theme p).page.rootTheme ∧
    (setTheme theme p).page.rootTheme =
      some (if theme = "auto" ∧ p.osDark = true then "dark" else theme) ∧
    (setTheme theme p).page.osDark = p.osDark := by
  by_cases hl : theme = "light"
  · subst hl
    have hD : ∀ cls : List String,
        classRemove "dark-theme" (classToggle "light-theme" (classRemove "dark-theme" cls)) =
          classToggle "light-theme" (classRemove "dark-theme" cls) := by
      intro cls
      apply classRemove_of_not_mem
      simp [mem_classToggle, mem_classRemove]
    have hD2 : ∀ cls : List String,
        classRemove "dark-theme"
            (classToggle "light-theme" (classToggle "light-theme" (classRemove "dark-theme" cls))) =
          classToggle "light-theme" (classToggle "light-theme" (classRemove "dark-theme" cls)) := by
      intro cls
      apply classRemove_of_not_mem
      simp [mem_classToggle, mem_classRemove]
    simp only [setTheme_light, Outcome.page, hD, hD2, classToggle_thrice]
    simp
  by_cases hd : theme = "dark"
  · subst hd
    have hL : ∀ cls : List String,
        classRemove "light-theme" (classToggle "dark-theme" (classRemove "light-theme" cls)) =
          classToggle "dark-theme" (classRemove "light-theme" cls) := by
      intro cls
      apply classRemove_of_not_mem
      simp [mem_classToggle, mem_classRemove]
    have hL2 : ∀ cls : List String,
        classRemove "light-theme"
            (classToggle "dark-theme" (classToggle "dark-theme" (classRemove "light-theme" cls))) =
          classToggle "dark-theme" (classToggle "dark-theme" (classRemove "light-theme" cls)) := by
      intro cls
      apply classRemove_of_not_mem
      simp [mem_classToggle, mem_classRemove]
    simp only [setTheme_dark, Outcome.page, hL, hL2, classToggle_thrice]
    simp
  by_cases ha : theme = "auto"
  · subst ha
    cases hos : p.osDark with
    | true =>
      have h1 := setTheme_auto_osDark p hos
      have h2 := setTheme_auto_osDark (setTheme "auto" p).page (by rw [h1]; exact hos)
      have h3 := setTheme_auto_osDark (setTheme "auto" (setTheme "auto" p).page).page
        (by rw [h2, h1]; exact hos)
      rw [h3, h2, h1]
      simp [Outcome.page, classToggle_thrice, hos]
    | false =>
      have h1 := setTheme_auto_osLight p hos
      have h2 := setTheme_auto_osLight (setTheme "auto" p).page (by rw [h1]; exact hos)
      have h3 := setTheme_auto_osLight (setTheme "auto" (setTheme "auto" p).page).page
        (by rw [h2, h1]; exact hos)
      rw [h3, h2, h1]
      simp [Outcome.page, classToggle_thrice, hos]
  · simp only [setTheme_other theme _ hl hd ha]
    unfold bodyToggle
    by_cases hv : validToken (theme ++ "-theme") = true
    · simp [hv, Outcome.page, classToggle_thrice, ha]
    · simp [hv, Outcome.page, ha]

/-! ## `showActiveTheme` -/

theorem findControl_eq_none_iff (theme : String) (cs : List Control) :
    findControl theme cs = none ↔ ∀ c ∈ cs, c.marker ≠ theme := by
  induction cs with
  | nil => simp [findControl]
  | cons d ds ih =>
    by_cases hd : d.marker = theme
    · simp [findControl, hd]
    · simp [findControl, hd, ih]

theorem findControl_some {theme : String} {cs : List Control} {i : Nat} {c : Control}
    (h : findControl theme cs = some (i, c)) :
    cs[i]? = some c ∧ c.marker = theme := by
  induction cs generalizing i with
  | nil => simp [findControl] at h
  | cons d ds ih =>
    by_cases hd : d.marker = theme
    · simp only [findControl, hd, if_true, Option.some.injEq, Prod.mk.injEq] at h
      obtain ⟨rfl, rfl⟩ := h
      simp [hd]
    · simp only [findControl, hd, if_false, Option.map_eq_some', Prod.mk.injEq] at h
      obtain ⟨⟨k, e⟩, hk, rfl, rfl⟩ := h
      simpa using ih hk

theorem not_active_mem_clearActive {cs : List Control} {d : Control}
    (h : d ∈ clearActive cs) : "active" ∉ d.classes := by
  simp only [clearActive, List.mem_map] at h
  obtain ⟨c, -, rfl⟩ := h
  exact not_mem_classRemove _ _

theorem active_mem_classAdd (cls : List String) : "active" ∈ classAdd "active" cls := by
  unfold classAdd
  split <;> simp [*]

theorem addActiveAt_clearActive_getElem? {cs : List Control} {i : Nat} {c : Control}
    (h : cs[i]? = some c) :
    (addActiveAt i (clearActive cs))[i]? =
      some { c with classes := classAdd "active" (classRemove "active" c.classes) } := by
  induction cs generalizing i with
  | nil => simp at h
  | cons d ds ih =>
    cases i with
    | zero =>
      simp only [List.getElem?_cons_zero, Option.some.injEq] at h
      subst h
      simp [clearActive, addActiveAt]
    | succ k =>
      simp only [List.getElem?_cons_succ] at h
      simpa [clearActive, addActiveAt] using ih h

theorem active_addActiveAt_clearActive {cs : List Control} {i : Nat} (hi : i < cs.length)
    {j : Nat} {d : Control} (h : (addActiveAt i (clearActive cs))[j]? = some d) :
    "active" ∈ d.classes ↔ j = i := by
  induction cs generalizing i j with
  | nil => simp at hi
  | cons e es ih =>
    cases i with
    | zero =>
      cases j with
      | zero =>
        simp only [clearActive, List.map_cons, addActiveAt, List.getElem?_cons_zero,
          Option.some.injEq] at h
        subst h
        simp [active_mem_classAdd]
      | succ m =>
        simp only [clearActive, List.map_cons, addActiveAt, List.getElem?_cons_succ] at h
        have hm : d ∈ clearActive es := List.getElem?_mem h
        simp [not_active_mem_clearActive hm]
    | succ k =>
      cases j with
      | zero =>
        simp only [clearActive, List.map_cons, addActiveAt, List.getElem?_cons_zero,
          Option.some.injEq] at h
        subst h
        simp [not_mem_classRemove]
      | succ m =>
        simp only [clearActive, List.map_cons, addActiveAt, List.getElem?_cons_succ] at h
        have := ih (Nat.lt_of_succ_lt_succ hi) h
        simpa using this

theorem cssString_light : cssString "light" = .closed "light".data [']'] := by decide

theorem cssString_dark : cssString "dark" = .closed "dark".data [']'] := by decide

theorem cssString_auto : cssString "auto" = .closed "auto".data [']'] := by decide

theorem scanString_plain_append (l acc rest : List Char)
    (hl : ∀ c ∈ l, plainCssChar c = true) :
    scanString .plain acc (l ++ rest) = scanString .plain (acc ++ l) rest := by
  induction l generalizing acc with
  | nil => simp
  | cons c cs ih =>
    have hc : plainCssChar c = true := hl c (List.mem_cons_self _ _)
    simp only [plainCssChar, Bool.and_eq_true, Bool.not_eq_true', decide_eq_true_eq,
      ne_eq] at hc
    obtain ⟨⟨⟨hq, hb⟩, hn⟩, hz⟩ := hc
    have hcc : cssChar c = c := by simp [cssChar, hz]
    rw [List.cons_append, scanString]
    simp only [plainChar, hq, hb, hn, if_false, hcc, Bool.false_eq_true]
    rw [ih _ (fun d hd => hl d (List.mem_cons_of_mem _ hd))]
    simp

/-- A theme without a double quote, a backslash, a line break or U+0000 reads,
in the selector of line 36, as the CSS string with the value `theme`. -/
theorem cssString_of_plain (theme : String) (h : ∀ c ∈ theme.data, plainCssChar c = true) :
    cssString theme = .closed theme.data [']'] := by
  unfold cssString
  rw [scanString_plain_append _ _ _ h]
  simp [scanString, plainChar]

theorem querySelectorTheme_of_closed {theme value : String} {p : Page}
    (hv : cssString theme = .closed value.data [']']) :
    querySelectorTheme qs theme p =
      match findControl value p.controls with
      | none => .missing
      | some (i, _) => .control i := by
  simp [querySelectorTheme, hv]

theorem showActiveTheme_ok {theme value : String} {p : Page} {i : Nat} {c : Control}
    {h a : Option String} (hv : cssString theme = .closed value.data [']'])
    (hfind : findControl value p.controls = some (i, c))
    (hicon : c.icon = some h) (hact : p.activeIcon = some a) :
    showActiveTheme qs theme p = .ok { p with
      controls := addActiveAt i (clearActive p.controls),
      activeIcon := some (some (attrString h)) } := by
  simp [showActiveTheme, querySelectorTheme_of_closed hv, hfind, (findControl_some hfind).1,
    hicon, setActiveIcon, hact]

/-- C4, as stated, fails: on `noHrefPage` the `dark` control has a nested
`svg use` element and the page has an active-icon element, `showActiveTheme
"dark"` returns normally, but the `use` element of the control has no `href`
(line 37 reads `null`) and the active-icon element gets the `href` `null`, the
string, which is not the reference of the control's icon. -/
theorem showActiveTheme_dark_without_href :
    findControl "dark" noHrefPage.controls =
      some (1, { marker := "dark", classes := [], icon := some none, listening := false }) ∧
    noHrefPage.activeIcon ≠ none ∧
    (showActiveTheme strictEngine "dark" noHrefPage).isOk = true ∧
    (showActiveTheme strictEngine "dark" noHrefPage).page.activeIcon = some (some "null") ∧
    ((showActiveTheme strictEngine "dark" noHrefPage).page.controls[1]?).map Control.icon =
      some (some none) ∧
    ((showActiveTheme strictEngine "dark" noHrefPage).page.controls[1]?).map Control.icon ≠
      some (showActiveTheme strictEngine "dark" noHrefPage).page.activeIcon := by
  decide

/-- C4, amended: on a page whose `dark` control (the first control with the
marker `dark`, the one `querySelector` returns; it is at position `i`) has an icon
element `h` below it, and which has an active-icon element, `showActiveTheme
"dark"` returns normally whatever classes the controls had and whatever the
selector engine is; afterwards a control carries `active` exactly when it is the
one at position `i`, that control has the marker `dark` and the icon it had, and
the `href` of the active-icon element is the `href` of that icon when the icon
has one and the string `null` when it has none. -/
theorem showActiveTheme_dark (qs : Engine) (p : Page) (i : Nat) (c : Control)
    (h a : Option String) (hfind : findControl "dark" p.controls = some (i, c))
    (hicon : c.icon = some h) (hact : p.activeIcon = some a) :
    (showActiveTheme qs "dark" p).isOk = true ∧
    (∀ j d, (showActiveTheme qs "dark" p).page.controls[j]? = some d →
      ("active" ∈ d.classes ↔ j = i)) ∧
    (∃ d, (showActiveTheme qs "dark" p).page.controls[i]? = some d ∧ "active" ∈ d.classes ∧
      d.marker = "dark" ∧ d.icon = some h) ∧
    (showActiveTheme qs "dark" p).page.activeIcon =
      some (some (match h with
        | some href => href
        | none => "null")) := by
  obtain ⟨hget, hmark⟩ := findControl_some hfind
  have hi : i < p.controls.length := by
    rcases Nat.lt_or_ge i p.controls.length with hlt | hge
    · exact hlt
    · rw [List.getElem?_eq_none hge] at hget
      cases hget
  rw [showActiveTheme_ok cssString_dark hfind hicon hact]
  refine ⟨rfl, ?_, ?_, ?_⟩
  · intro j d hd
    exact active_addActiveAt_clearActive hi hd
  · exact ⟨_, addActiveAt_clearActive_getElem? hget, active_mem_classAdd _, hmark, hicon⟩
  · cases h <;> rfl

theorem showActiveTheme_dark_witness :
    (showActiveTheme strictEngine "dark" freshDarkPage).isOk = true ∧
    (∀ j d, (showActiveTheme strictEngine "dark" freshDarkPage).page.controls[j]? = some d →
      ("active" ∈ d.classes ↔ j = 1)) ∧
    (∃ d, (showActiveTheme strictEngine "dark" freshDarkPage).page.controls[1]? = some d ∧
      "active" ∈ d.classes ∧ d.marker = "dark" ∧ d.icon = some (some "#moon")) ∧
    (showActiveTheme strictEngine "dark" freshDarkPage).page.activeIcon = some (some "#moon") :=
  showActiveTheme_dark strictEngine freshDarkPage 1 (mkControl "dark" [] "#moon")
    (some "#moon") (some "#half") (by decide) rfl rfl

/-- C7, as stated, fails: no control of `freshDarkPage` has the marker `dar\k`,
but line 36 writes the theme unescaped into the selector, where `\k` is the CSS
escape of `k`; the selector selects the `dark` control and `showActiveTheme`
returns normally, having moved the `active` class. -/
theorem showActiveTheme_escaped_theme :
    (∀ c ∈ freshDarkPage.controls, c.marker ≠ "dar\\k") ∧
    cssString "dar\\k" = .closed "dark".data [']'] ∧
    (showActiveTheme strictEngine "dar\\k" freshDarkPage).isOk = true ∧
    activeMarkers freshDarkPage = ["auto"] ∧
    activeMarkers (showActiveTheme strictEngine "dar\\k" freshDarkPage).page = ["dark"] := by
  decide

/-- C7, amended: let `theme` be without a double quote, a backslash, a line
break and U+0000 and `value` be `theme`, or let `theme` read, in the selector of
line 36, as the CSS string with the value `value`.  When no control has the
marker `value`, or the control that has it has no `svg use` element below it,
`showActiveTheme theme` throws and leaves the page as it was, the `active`
classes and the icon reference included.  When that call is the one of the
`DOMContentLoaded` listener, the listener throws with the page unchanged and the
session after the event is the session before it: no control has a click
listener it did not have, and when none had one a click on any control
afterwards does nothing. -/
theorem showActiveTheme_throws (qs : Engine) (theme value : String) (p : Page)
    (hv : ((∀ c ∈ theme.data, plainCssChar c = true) ∧ value = theme) ∨
      cssString theme = .closed value.data [']'])
    (h : (∀ c ∈ p.controls, c.marker ≠ value) ∨
      ∃ i c, findControl value p.controls = some (i, c) ∧ c.icon = none) :
    showActiveTheme qs theme p = .thrown p ∧
    (∀ storedTheme, getPreferredTheme storedTheme p = theme →
      onDOMContentLoaded qs storedTheme p = .thrown p) ∧
    (∀ s : Session, s.page = p → getPreferredTheme s.storedTheme p = theme →
      domContentLoaded qs s = s ∧
        (domContentLoaded qs s).page.controls.map Control.listening =
          p.controls.map Control.listening ∧
        ((∀ c ∈ p.controls, c.listening = false) →
          ∀ k, step qs (domContentLoaded qs s) (.click k) = s)) := by
  have hv : cssString theme = .closed value.data [']'] := by
    rcases hv with ⟨hp, rfl⟩ | hv
    · exact cssString_of_plain value hp
    · exact hv
  have hthrow : showActiveTheme qs theme p = .thrown p := by
    rcases h with h | ⟨i, c, hfind, hicon⟩
    · simp [showActiveTheme, querySelectorTheme_of_closed hv,
        (findControl_eq_none_iff value p.controls).2 h]
    · simp [showActiveTheme, querySelectorTheme_of_closed hv, hfind,
        (findControl_some hfind).1, hicon]
  have hload : ∀ storedTheme, getPreferredTheme storedTheme p = theme →
      onDOMContentLoaded qs storedTheme p = .thrown p := by
    intro st hst
    simp [onDOMContentLoaded, hst, hthrow, Outcome.andThen]
  refine ⟨hthrow, hload, ?_⟩
  intro s hs hst
  have hs2 : domContentLoaded qs s = s := by
    unfold domContentLoaded
    split
    · rw [hs, hload _ hst]
      cases s
      simp_all [Outcome.page]
    · rfl
  refine ⟨hs2, by rw [hs2, hs], ?_⟩
  intro hno k
  rw [hs2]
  simp only [step]
  cases hk : s.page.controls[k]? with
  | none => rfl
  | some c =>
    have hc : c.listening = false := hno c (hs ▸ List.getElem?_mem hk)
    simp [hc]

theorem map_marker_clearActive (cs : List Control) :
    (clearActive cs).map Control.marker = cs.map Control.marker := by
  simp [clearActive, Function.comp_def]

theorem map_icon_clearActive (cs : List Control) :
    (clearActive cs).map Control.icon = cs.map Control.icon := by
  simp [clearActive, Function.comp_def]

theorem map_marker_addActiveAt (i : Nat) (cs : List Control) :
    (addActiveAt i cs).map Control.marker = cs.map Control.marker := by
  induction cs generalizing i with
  | nil => simp [addActiveAt]
  | cons d ds ih => cases i <;> simp [addActiveAt, ih]

theorem map_icon_addActiveAt (i : Nat) (cs : List Control) :
    (addActiveAt i cs).map Control.icon = cs.map Control.icon := by
  induction cs generalizing i with
  | nil => simp [addActiveAt]
  | cons d ds ih => cases i <;> simp [addActiveAt, ih]

theorem map_marker_attachClick (cs : List Control) :
    (attachClick cs).map Control.marker = cs.map Control.marker := by
  simp [attachClick, Function.comp_def]

theorem map_icon_attachClick (cs : List Control) :
    (attachClick cs).map Control.icon = cs.map Control.icon := by
  simp [attachClick, Function.comp_def]

theorem active_iff_marker {theme : String} {cs : List Control} {i : Nat} {c : Control}
    (hnd : (cs.map Control.marker).Nodup) (hfind : findControl theme cs = some (i, c)) :
    ∀ d ∈ addActiveAt i (clearActive cs), ("active" ∈ d.classes ↔ d.marker = theme) := by
  induction cs generalizing i with
  | nil => simp [findControl] at hfind
  | cons e es ih =>
    rw [List.map_cons, List.nodup_cons] at hnd
    by_cases he : e.marker = theme
    · simp only [findControl, he, if_true, Option.some.injEq, Prod.mk.injEq] at hfind
      obtain ⟨rfl, rfl⟩ := hfind
      intro d hd
      simp only [clearActive, List.map_cons, addActiveAt, List.mem_cons] at hd
      rcases hd with rfl | hd
      · simp [active_mem_classAdd, he]
      · have hna : "active" ∉ d.classes := not_active_mem_clearActive hd
        have hm : d.marker ∈ es.map Control.marker := by
          rw [← map_marker_clearActive]
          exact List.mem_map_of_mem _ hd
        have hne : d.marker ≠ theme := fun e2 => hnd.1 (by rw [he, ← e2]; exact hm)
        simp [hna, hne]
    · simp only [findControl, he, if_false, Option.map_eq_some', Prod.mk.injEq] at hfind
      obtain ⟨⟨k, c2⟩, hk, rfl, rfl⟩ := hfind
      intro d hd
      simp only [clearActive, List.map_cons, addActiveAt, List.mem_cons] at hd
      rcases hd with rfl | hd
      · simp [not_mem_classRemove, he]
      · exact ih hnd.2 hk d hd

/-! ## Well-formed pages -/

theorem wellFormed_congr {p q : Page}
    (hm : q.controls.map Control.marker = p.controls.map Control.marker)
    (hi : q.controls.map Control.icon = p.controls.map Control.icon)
    (ha : q.activeIcon ≠ none) (hw : WellFormed p) : WellFormed q := by
  obtain ⟨hperm, hicon, -⟩ := hw
  refine ⟨hm ▸ hperm, ?_, ha⟩
  intro c hc
  have h1 : c.icon ∈ p.controls.map Control.icon := hi ▸ List.mem_map_of_mem _ hc
  obtain ⟨d, hd, hdc⟩ := List.mem_map.1 h1
  rw [← hdc]
  exact hicon d hd

theorem showActiveTheme_of_wellFormed (qs : Engine) {p : Page} {theme : String} (hw : WellFormed p)
    (ht : theme = "light" ∨ theme = "dark" ∨ theme = "auto") :
    ∃ cs ai, showActiveTheme qs theme p = .ok { p with controls := cs, activeIcon := some ai } ∧
      cs.map Control.marker = p.controls.map Control.marker ∧
      cs.map Control.icon = p.controls.map Control.icon ∧
      ∀ d ∈ cs, ("active" ∈ d.classes ↔ d.marker = theme) := by
  obtain ⟨hperm, hicon, hact⟩ := hw
  have hmem : theme ∈ p.controls.map Control.marker := by
    rw [hperm.mem_iff]
    simpa using ht
  have hnd : (p.controls.map Control.marker).Nodup := hperm.nodup_iff.2 (by decide)
  have hv : cssString theme = .closed theme.data [']'] := by
    rcases ht with rfl | rfl | rfl
    · exact cssString_light
    · exact cssString_dark
    · exact cssString_auto
  cases hfind : findControl theme p.controls with
  | none =>
    obtain ⟨c, hc, hcm⟩ := List.mem_map.1 hmem
    exact absurd hcm ((findControl_eq_none_iff theme p.controls).1 hfind c hc)
  | some r =>
    obtain ⟨i, c⟩ := r
    have hc : c ∈ p.controls := List.getElem?_mem (findControl_some hfind).1
    cases hic : c.icon with
    | none => exact absurd hic (hicon c hc)
    | some h =>
      cases hai : p.activeIcon with
      | none => exact absurd hai hact
      | some a =>
        refine ⟨addActiveAt i (clearActive p.controls), some (attrString h),
          showActiveTheme_ok hv hfind hic hai, ?_, ?_, active_iff_marker hnd hfind⟩
        · rw [map_marker_addActiveAt, map_marker_clearActive]
        · rw [map_icon_addActiveAt, map_icon_clearActive]

theorem getElem?_attachClick {cs : List Control} {k : Nat} {c : Control}
    (h : cs[k]? = some c) : (attachClick cs)[k]? = some { c with listening := true } := by
  simp [attachClick, h]

theorem marker_getElem?_of_map_eq {cs ds : List Control}
    (hm : ds.map Control.marker = cs.map Control.marker) {k : Nat} {c : Control}
    (h : cs[k]? = some c) : ∃ d, ds[k]? = some d ∧ d.marker = c.marker := by
  have h1 : (ds.map Control.marker)[k]? = some c.marker := by
    rw [hm, List.getElem?_map, h]
    rfl
  rw [List.getElem?_map] at h1
  cases hd : ds[k]? with
  | none => simp [hd] at h1
  | some d =>
    refine ⟨d, rfl, ?_⟩
    simpa [hd] using h1

theorem active_attachClick {cs : List Control} {theme : String}
    (h : ∀ d ∈ cs, ("active" ∈ d.classes ↔ d.marker = theme)) :
    ∀ d ∈ attachClick cs, ("active" ∈ d.classes ↔ d.marker = theme) := by
  intro d hd
  simp only [attachClick, List.mem_map] at hd
  obtain ⟨c, hc, rfl⟩ := hd
  exact h c hc

/-! ## Sessions -/

/-- C5: on a well-formed page with no stored preference and a dark operating
system, whatever the selector engine, after the script has run and
`DOMContentLoaded` has fired the attribute is `dark` and the controls that carry
`active` are those with the marker `dark` (one control, since the page is well
formed).  When the user then clicks the control with the marker `light`, the
storage entry is `light`, the attribute is `light`, the body does not carry
`dark-theme` and carries `light-theme`, and the controls that carry `active` are
those with the marker `light`. -/
theorem load_then_click_light (qs : Engine) (p : Page) (hw : WellFormed p) (hst : p.storage = none)
    (hos : p.osDark = true) :
    (domContentLoaded qs (runScript p)).page.rootTheme = some "dark" ∧
    (domContentLoaded qs (runScript p)).page.controls.map Control.marker =
      p.controls.map Control.marker ∧
    (∀ d ∈ (domContentLoaded qs (runScript p)).page.controls,
      ("active" ∈ d.classes ↔ d.marker = "dark")) ∧
    ∀ k c, p.controls[k]? = some c → c.marker = "light" →
      (step qs (domContentLoaded qs (runScript p)) (.click k)).page.storage = some "light" ∧
      (step qs (domContentLoaded qs (runScript p)) (.click k)).page.rootTheme = some "light" ∧
      "dark-theme" ∉ (step qs (domContentLoaded qs (runScript p)) (.click k)).page.bodyClasses ∧
      "light-theme" ∈ (step qs (domContentLoaded qs (runScript p)) (.click k)).page.bodyClasses ∧
      (step qs (domContentLoaded qs (runScript p)) (.click k)).page.controls.map Control.marker =
        p.controls.map Control.marker ∧
      ∀ d ∈ (step qs (domContentLoaded qs (runScript p)) (.click k)).page.controls,
        ("active" ∈ d.classes ↔ d.marker = "light") := by
  have h1 : runScript p = { storedTheme := none, registered := true, page := { p with
      lastApplied := some "dark", rootTheme := some "dark",
      bodyClasses := classToggle "dark-theme" (classRemove "light-theme" p.bodyClasses) } } := by
    simp [runScript, hst, getPreferredTheme, osTheme, hos, setTheme_dark]
  have hw1 : WellFormed { p with
      lastApplied := some "dark", rootTheme := some "dark",
      bodyClasses := classToggle "dark-theme" (classRemove "light-theme" p.bodyClasses) } :=
    wellFormed_congr rfl rfl hw.2.2 hw
  obtain ⟨cs, ai, hshow, hm, hi, hact⟩ :=
    showActiveTheme_of_wellFormed qs hw1 (Or.inr (Or.inl rfl))
  have h2 : domContentLoaded qs (runScript p) =
      { storedTheme := none, registered := true, page := { p with
        lastApplied := some "dark", rootTheme := some "dark",
        bodyClasses := classToggle "dark-theme" (classRemove "light-theme" p.bodyClasses),
        controls := attachClick cs, activeIcon := some ai } } := by
    have hpref : getPreferredTheme none { p with
        lastApplied := some "dark", rootTheme := some "dark",
        bodyClasses := classToggle "dark-theme" (classRemove "light-theme" p.bodyClasses) } =
        "dark" := by
      simp [getPreferredTheme, osTheme, hos]
    rw [h1]
    simp only [domContentLoaded, onDOMContentLoaded, hpref, hshow, Outcome.andThen,
      Outcome.page, ↓reduceIte]
  rw [h2]
  refine ⟨rfl, ?_, active_attachClick hact, ?_⟩
  · simpa [map_marker_attachClick] using hm
  intro k c hk hcm
  obtain ⟨d, hd, hdm⟩ := marker_getElem?_of_map_eq hm hk
  have hd2 := getElem?_attachClick hd
  have hw3 : WellFormed { p with
      storage := some "light", lastApplied := some "light", rootTheme := some "light",
      bodyClasses := classToggle "light-theme" (classRemove "dark-theme"
        (classToggle "dark-theme" (classRemove "light-theme" p.bodyClasses))),
      controls := attachClick cs, activeIcon := some ai } := by
    refine wellFormed_congr ?_ ?_ (by simp) hw
    · simpa [map_marker_attachClick] using hm
    · simpa [map_icon_attachClick] using hi
  obtain ⟨cs2, ai2, hshow2, hm2, -, hact2⟩ :=
    showActiveTheme_of_wellFormed qs hw3 (Or.inl rfl)
  have h3 : step qs { storedTheme := none, registered := true, page := { p with
        lastApplied := some "dark", rootTheme := some "dark",
        bodyClasses := classToggle "dark-theme" (classRemove "light-theme" p.bodyClasses),
        controls := attachClick cs, activeIcon := some ai } } (.click k) =
      { storedTheme := none, registered := true, page := { p with
        storage := some "light", lastApplied := some "light", rootTheme := some "light",
        bodyClasses := classToggle "light-theme" (classRemove "dark-theme"
          (classToggle "dark-theme" (classRemove "light-theme" p.bodyClasses))),
        controls := cs2, activeIcon := some ai2 } } := by
    simp [step, hd2, hdm, hcm, onClick, setTheme_light, Outcome.andThen, hshow2, Outcome.page]
  rw [h3]
  refine ⟨rfl, rfl, ?_, ?_, ?_, hact2⟩
  · simp [mem_classToggle, mem_classRemove]
  · simp [mem_classToggle, mem_classRemove]
  · rw [hm2]
    simpa [map_marker_attachClick] using hm

theorem setTheme_frame (theme : String) (p : Page) :
    (setTheme theme p).page.storage = p.storage ∧ (setTheme theme p).page.osDark = p.osDark := by
  have hb : ∀ (tok : String) (q : Page), (bodyToggle tok q).page.storage = q.storage ∧
      (bodyToggle tok q).page.osDark = q.osDark := by
    intro tok q
    unfold bodyToggle
    split <;> exact ⟨rfl, rfl⟩
  unfold setTheme
  simp only
  split
  · exact hb _ _
  · split
    · exact hb _ _
    · split
      · exact hb _ _
      · exact hb _ _

theorem setActiveIcon_frame (h : Option String) (p : Page) :
    (setActiveIcon h p).page.storage = p.storage ∧ (setActiveIcon h p).page.osDark = p.osDark := by
  unfold setActiveIcon
  cases p.activeIcon <;> exact ⟨rfl, rfl⟩

theorem showActiveTheme_frame (theme : String) (p : Page) :
    (showActiveTheme qs theme p).page.storage = p.storage ∧
      (showActiveTheme qs theme p).page.osDark = p.osDark := by
  unfold showActiveTheme
  cases querySelectorTheme qs theme p with
  | invalid => exact ⟨rfl, rfl⟩
  | missing => exact ⟨rfl, rfl⟩
  | control i =>
    simp only
    cases p.controls[i]? with
    | none => exact ⟨rfl, rfl⟩
    | some c =>
      simp only
      cases c.icon with
      | none => exact ⟨rfl, rfl⟩
      | some h => exact setActiveIcon_frame _ _
  | other isBody icon =>
    simp only
    cases icon with
    | none => exact ⟨rfl, rfl⟩
    | some h =>
      simp only
      cases isBody <;> exact setActiveIcon_frame _ _

theorem andThen_frame {o : Outcome} {f : Page → Outcome} {st : Option String} {os : Bool}
    (ho : o.page.storage = st ∧ o.page.osDark = os)
    (hf : ∀ q, (f q).page.storage = q.storage ∧ (f q).page.osDark = q.osDark) :
    (o.andThen f).page.storage = st ∧ (o.andThen f).page.osDark = os := by
  cases o with
  | ok q =>
    simp only [Outcome.andThen]
    simp only [Outcome.page] at ho
    rw [(hf q).1, (hf q).2]
    exact ho
  | thrown q => exact ho

theorem onClick_frame (theme : String) (p : Page) :
    (onClick qs theme p).page.storage = some theme ∧ (onClick qs theme p).page.osDark = p.osDark := by
  unfold onClick
  exact andThen_frame (setTheme_frame theme _) (showActiveTheme_frame theme)

theorem onDOMContentLoaded_frame (storedTheme : Option String) (p : Page) :
    (onDOMContentLoaded qs storedTheme p).page.storage = p.storage ∧
      (onDOMContentLoaded qs storedTheme p).page.osDark = p.osDark := by
  unfold onDOMContentLoaded
  exact andThen_frame (showActiveTheme_frame _ p) (fun q => ⟨rfl, rfl⟩)

theorem onColorSchemeChange_frame (storedTheme : Option String) (p : Page) :
    (onColorSchemeChange storedTheme p).page.storage = p.storage := by
  unfold onColorSchemeChange
  split
  · exact (setTheme_frame _ p).1
  · rfl

theorem step_storedTheme (s : Session) (e : Event) : (step qs s e).storedTheme = s.storedTheme := by
  cases e with
  | click k =>
    simp only [step]
    cases s.page.controls[k]? with
    | none => rfl
    | some c =>
      simp only
      split <;> rfl
  | colorSchemeChange =>
    simp only [step]
    split <;> rfl

theorem run_storedTheme (s : Session) (evs : List Event) :
    (run qs s evs).storedTheme = s.storedTheme := by
  induction evs generalizing s with
  | nil => rfl
  | cons e es ih =>
    simp only [run, List.foldl_cons] at ih ⊢
    rw [ih, step_storedTheme]

theorem step_click_osDark (s : Session) (k : Nat) :
    (step qs s (.click k)).page.osDark = s.page.osDark := by
  simp only [step]
  cases s.page.controls[k]? with
  | none => rfl
  | some c =>
    simp only
    split
    · exact (onClick_frame _ _).2
    · rfl

theorem run_click_osDark (s : Session) (ks : List Nat) :
    (run qs s (ks.map Event.click)).page.osDark = s.page.osDark := by
  induction ks generalizing s with
  | nil => rfl
  | cons k ks ih =>
    simp only [run, List.map_cons, List.foldl_cons] at ih ⊢
    rw [ih, step_click_osDark]

theorem getPreferredTheme_congr (storedTheme : Option String) {p q : Page}
    (h : p.osDark = q.osDark) : getPreferredTheme storedTheme p = getPreferredTheme storedTheme q := by
  simp [getPreferredTheme, osTheme, h]

theorem step_click_storage (s : Session) (k : Nat) :
    (step qs s (.click k)).page.storage =
      match s.page.controls[k]? with
      | none => s.page.storage
      | some c => if c.listening then some c.marker else s.page.storage := by
  simp only [step]
  cases s.page.controls[k]? with
  | none => rfl
  | some c =>
    simp only
    split
    · exact (onClick_frame _ _).1
    · rfl

theorem step_colorSchemeChange_storage (s : Session) :
    (step qs s .colorSchemeChange).page.storage = s.page.storage := by
  simp only [step]
  split
  · exact onColorSchemeChange_frame _ _
  · rfl

theorem load_then_click_light_witness :
    WellFormed freshDarkPage ∧
    loadedFreshDark.page.rootTheme = some "dark" ∧
    (step strictEngine loadedFreshDark (.click 0)).page.storage = some "light" ∧
    (step strictEngine loadedFreshDark (.click 0)).page.rootTheme = some "light" :=
  ⟨by decide, (load_then_click_light strictEngine freshDarkPage (by decide) rfl rfl).1,
    ((load_then_click_light strictEngine freshDarkPage (by decide) rfl rfl).2.2.2
      0 _ rfl rfl).1,
    ((load_then_click_light strictEngine freshDarkPage (by decide) rfl rfl).2.2.2
      0 _ rfl rfl).2.1⟩

/-- C6 fails on the code, whatever the selector engine: on the well-formed page
`freshDarkPage` (no stored preference, dark operating system), after the script has run and
`DOMContentLoaded` has fired, one change of the colour scheme makes the listener
of lines 47-51 call `setTheme("light")`, so `light` is the value last passed to
`setTheme`, while the one control that carries `active` is still the one with
the marker `dark`: the listener does not call `showActiveTheme`. -/
theorem colorSchemeChange_keeps_highlight (qs : Engine) :
    WellFormed freshDarkPage ∧
    (step qs (domContentLoaded qs (runScript freshDarkPage))
      .colorSchemeChange).page.lastApplied = some "light" ∧
    (step qs (domContentLoaded qs (runScript freshDarkPage))
      .colorSchemeChange).page.rootTheme = some "light" ∧
    activeMarkers (step qs (domContentLoaded qs (runScript freshDarkPage))
      .colorSchemeChange).page = ["dark"] := by
  exact ⟨by decide, rfl, rfl, rfl⟩

theorem showActiveTheme_throws_witness :
    showActiveTheme strictEngine "blue" bluePage = .thrown bluePage ∧
    showActiveTheme strictEngine "dark" bareDarkPage = .thrown bareDarkPage ∧
    showActiveTheme strictEngine "b\\lue" bluePage = .thrown bluePage ∧
    (runScript bluePage).registered = true ∧
    domContentLoaded strictEngine (runScript bluePage) = runScript bluePage ∧
    step strictEngine (domContentLoaded strictEngine (runScript bluePage)) (.click 0) =
      runScript bluePage :=
  ⟨(showActiveTheme_throws strictEngine "blue" "blue" bluePage (Or.inl ⟨by decide, rfl⟩)
      (Or.inl (by decide))).1,
    (showActiveTheme_throws strictEngine "dark" "dark" bareDarkPage (Or.inr (by decide))
      (Or.inr ⟨1, _, rfl, rfl⟩)).1,
    (showActiveTheme_throws strictEngine "b\\lue" "blue" bluePage (Or.inr (by decide))
      (Or.inl (by decide))).1, by decide,
    ((showActiveTheme_throws strictEngine "blue" "blue" (runScript bluePage).page
      (Or.inl ⟨by decide, rfl⟩) (Or.inl (by decide))).2.2
      (runScript bluePage) rfl (by decide)).1,
    ((showActiveTheme_throws strictEngine "blue" "blue" (runScript bluePage).page
      (Or.inl ⟨by decide, rfl⟩) (Or.inl (by decide))).2.2
      (runScript bluePage) rfl (by decide)).2.2 (by decide) 0⟩

/-- C8: the script reads the stored preference once.  The constant `storedTheme`
is the entry the page had when the script ran, and no event changes it; hence
after any events `getPreferredTheme` is determined by that constant and the
current signal of the operating system, and after any sequence of clicks, each
of which writes the clicked marker to the storage entry, it returns what it
returned before them.  Running the script, `DOMContentLoaded` and a change of the
colour scheme leave the storage entry as it is, and no event turns a present
entry into an absent one. -/
theorem storedTheme_read_once (qs : Engine) (p : Page) (s : Session) (evs : List Event)
    (ks : List Nat) :
    (runScript p).storedTheme = p.storage ∧
    (domContentLoaded qs s).storedTheme = s.storedTheme ∧
    (run qs s evs).storedTheme = s.storedTheme ∧
    (∀ q : Page, q.osDark = (run qs s evs).page.osDark →
      getPreferredTheme (run qs s evs).storedTheme (run qs s evs).page =
        getPreferredTheme s.storedTheme q) ∧
    getPreferredTheme (run qs s (ks.map Event.click)).storedTheme
        (run qs s (ks.map Event.click)).page =
      getPreferredTheme s.storedTheme s.page ∧
    (∀ k c, s.page.controls[k]? = some c → c.listening = true →
      (step qs s (.click k)).page.storage = some c.marker) ∧
    (runScript p).page.storage = p.storage ∧
    (domContentLoaded qs s).page.storage = s.page.storage ∧
    (step qs s .colorSchemeChange).page.storage = s.page.storage ∧
    (∀ e, s.page.storage ≠ none → (step qs s e).page.storage ≠ none) := by
  refine ⟨?_, ?_, run_storedTheme s evs, ?_, ?_, ?_, ?_, ?_,
    step_colorSchemeChange_storage s, ?_⟩
  · unfold runScript
    simp only
    split <;> rfl
  · unfold domContentLoaded
    split <;> rfl
  · intro q hq
    rw [run_storedTheme]
    exact getPreferredTheme_congr _ hq.symm
  · rw [run_storedTheme]
    exact getPreferredTheme_congr _ (run_click_osDark s ks)
  · intro k c hk hc
    rw [step_click_storage, hk]
    simp [hc]
  · have h := (setTheme_frame (getPreferredTheme p.storage p) p).1
    unfold runScript
    simp only
    split
    · rename_i q hq
      rw [hq] at h
      exact h
    · rename_i q hq
      rw [hq] at h
      exact h
  · unfold domContentLoaded
    split
    · exact (onDOMContentLoaded_frame _ _).1
    · rfl
  · intro e hne
    cases e with
    | click k =>
      rw [step_click_storage]
      cases s.page.controls[k]? with
      | none => exact hne
      | some c =>
        simp only
        split
        · simp
        · exact hne
    | colorSchemeChange =>
      rw [step_colorSchemeChange_storage]
      exact hne

theorem storedTheme_read_once_witness :
    (step strictEngine loadedFreshDark (.click 0)).page.storage = some "light" ∧
    getPreferredTheme (run strictEngine loadedFreshDark [.click 0]).storedTheme
        (run strictEngine loadedFreshDark [.click 0]).page =
      getPreferredTheme loadedFreshDark.storedTheme loadedFreshDark.page ∧
    getPreferredTheme loadedFreshDark.storedTheme loadedFreshDark.page = "dark" :=
  ⟨(storedTheme_read_once strictEngine freshDarkPage loadedFreshDark [] [0]).2.2.2.2.2.1
      0 _ rfl rfl,
    (storedTheme_read_once strictEngine freshDarkPage loadedFreshDark [] [0]).2.2.2.2.1,
    by decide⟩

end Theme
